import Mathlib

/-!
# Decision engine of the light/colour monitoring node (`src/main.c`)

A shallow embedding of the pure parts of `main.c`: `normalizar_cor`,
`obter_nome_da_cor`, `callback_botoes` and the alert, brightness and status
computations of the main loop, followed by theorems about them.

## Arithmetic conventions

* `uint8_t`, `uint16_t` and `uint32_t` values are natural numbers; `uint32_t`
  subtraction is taken modulo `2 ^ 32` (`u32sub`).
* `float` and `double` values are never negative in this program.  They are
  modelled exactly as dyadic rationals `man / 2 ^ sc` (`Fp`); every arithmetic
  operation is the exact operation followed by IEEE-754 rounding to nearest,
  ties to even, at 24 significant bits (`float`) or 53 (`double`).  All values
  met here are zero or lie between `2 ^ (-10)` and `2 ^ 24`, far inside the
  normal range of both formats, so exponent limits play no role.
* A conversion `(uint8_t)x` of a floating value truncates; C leaves it
  undefined when the truncated value does not fit, which is `none` here.
-/

/-! ## Floating-point model -/

/-- Worker of `bitLen`: counts binary digits, one halving per unit of fuel. -/
def bitLenAux : Nat → Nat → Nat
  | 0, _ => 0
  | fuel + 1, n => if n = 0 then 0 else bitLenAux fuel (n / 2) + 1

/-- Number of binary digits of `n` (`0` for `n = 0`); `n` units of fuel always suffice. -/
def bitLen (n : Nat) : Nat := bitLenAux n n

/-- A non-negative binary floating-point value, `man / 2 ^ sc`. -/
structure Fp where
  man : Nat
  sc : Nat
deriving DecidableEq, Repr

namespace Fp

/-- An integer converted to floating point (exact below `2 ^ 24`). -/
def ofNat (n : Nat) : Fp := ⟨n, 0⟩

/-- Integer part of a value, as a C conversion to an integer type takes it. -/
def trunc (x : Fp) : Nat := x.man / 2 ^ x.sc

/-- Comparison `x < y` of the represented values. -/
def lt (x y : Fp) : Prop := x.man * 2 ^ y.sc < y.man * 2 ^ x.sc

instance decLt (x y : Fp) : Decidable (Fp.lt x y) :=
  inferInstanceAs (Decidable (x.man * 2 ^ y.sc < y.man * 2 ^ x.sc))

/-- Rounds `m / 2 ^ sc` to `p` significant bits, to nearest, ties to even. -/
def roundTo (p m sc : Nat) : Fp :=
  let len := bitLen m
  if len ≤ p then ⟨m, sc⟩ else
    let k := len - p
    let q := m / 2 ^ k
    let rem := m % 2 ^ k
    let half := 2 ^ (k - 1)
    let q1 := if rem > half ∨ (rem = half ∧ q % 2 = 1) then q + 1 else q
    ⟨q1 * 2 ^ k, sc⟩

/-- Conversion of a value to the format with `p` significant bits. -/
def round (p : Nat) (x : Fp) : Fp := roundTo p x.man x.sc

/-- Product rounded to `p` significant bits. -/
def mul (p : Nat) (x y : Fp) : Fp := roundTo p (x.man * y.man) (x.sc + y.sc)

/-- Quotient rounded to `p` significant bits, for `p ≤ 64`, a divisor other than
zero and a quotient that is zero or at least `2 ^ (-16)`, as all quotients of this
program are: the quotient is cut after 80 fractional bits and a sticky bit records
whether anything was cut off, which decides the rounding exactly. -/
def div (p : Nat) (x y : Fp) : Fp :=
  let a := x.man * 2 ^ y.sc * 2 ^ 80
  let b := y.man * 2 ^ x.sc
  let q := a / b
  let s := if a % b = 0 then 0 else 1
  roundTo p (2 * q + s) 81

end Fp

/-- Significant bits of a C `float`. -/
def precFloat : Nat := 24

/-- Significant bits of a C `double`. -/
def precDouble : Nat := 53

/-- The `double` denoted by a decimal literal `num / den`, such as `1.1 = 11 / 10`. -/
def literalDouble (num den : Nat) : Fp := Fp.div precDouble (Fp.ofNat num) (Fp.ofNat den)

/-- Conversion `(uint8_t)x`: truncation, undefined when the result exceeds 255. -/
def castU8 (x : Fp) : Option Nat := if x.trunc < 256 then some x.trunc else none

/-! ## `normalizar_cor` -/

/-- The function `uint8_t normalizar_cor(uint16_t raw_value)`. -/
def normalizar_cor (raw_value : Nat) : Option Nat :=
  let raw_max : Nat := 255
  let normalized : Fp :=
    Fp.round precFloat
      (Fp.mul precDouble (Fp.div precFloat (Fp.ofNat raw_value) (Fp.ofNat raw_max))
        (literalDouble 255 1))
  let normalized := if Fp.lt normalized (Fp.ofNat 0) then Fp.ofNat 0 else normalized
  let normalized := if Fp.lt (Fp.ofNat 255) normalized then Fp.ofNat 255 else normalized
  castU8 normalized

/-! ## `obter_nome_da_cor` -/

/-- Result of the ranking block of `obter_nome_da_cor`: value and tag
(`'r'`, `'g'`, `'b'`) of the strongest, middle and weakest channel. -/
structure Ordem where
  max_val : Nat
  mid_val : Nat
  min_val : Nat
  max_cor : Char
  mid_cor : Char
  min_cor : Char
deriving DecidableEq, Repr

/-- The nested conditionals that rank the three channels. -/
def ordenar (r g b : Nat) : Ordem :=
  if r ≥ g ∧ r ≥ b then
    if g ≥ b then ⟨r, g, b, 'r', 'g', 'b'⟩ else ⟨r, b, g, 'r', 'b', 'g'⟩
  else if g ≥ r ∧ g ≥ b then
    if r ≥ b then ⟨g, r, b, 'g', 'r', 'b'⟩ else ⟨g, b, r, 'g', 'b', 'r'⟩
  else
    if r ≥ g then ⟨b, r, g, 'b', 'r', 'g'⟩ else ⟨b, g, r, 'b', 'g', 'r'⟩

/-- The three `float` variables `r_ajustado`, `g_ajustado`, `b_ajustado`. -/
structure Ajustado where
  r_ajustado : Fp
  g_ajustado : Fp
  b_ajustado : Fp
deriving DecidableEq, Repr

/-- Compound assignment `x *= c` of a `float` variable with a `double` literal:
the product is formed in `double` and stored back as a `float`. -/
def mulAtrib (x c : Fp) : Fp := Fp.round precFloat (Fp.mul precDouble x c)

/-- First correction chain: the strongest channel is multiplied by `1.1`. -/
def corrigir_max (o : Ordem) (a : Ajustado) : Ajustado :=
  if o.max_cor = 'r' then { a with r_ajustado := mulAtrib a.r_ajustado (literalDouble 11 10) }
  else if o.max_cor = 'g' then { a with g_ajustado := mulAtrib a.g_ajustado (literalDouble 11 10) }
  else if o.max_cor = 'b' then { a with b_ajustado := mulAtrib a.b_ajustado (literalDouble 11 10) }
  else a

/-- Second correction chain: the weakest channel is multiplied by `0.9`. -/
def corrigir_min (o : Ordem) (a : Ajustado) : Ajustado :=
  if o.min_cor = 'r' then { a with r_ajustado := mulAtrib a.r_ajustado (literalDouble 9 10) }
  else if o.min_cor = 'g' then { a with g_ajustado := mulAtrib a.g_ajustado (literalDouble 9 10) }
  else if o.min_cor = 'b' then { a with b_ajustado := mulAtrib a.b_ajustado (literalDouble 9 10) }
  else a

/-- The six clamping statements, in source order. -/
def limitar (a : Ajustado) : Ajustado :=
  let a := if Fp.lt (Fp.ofNat 255) a.r_ajustado then { a with r_ajustado := Fp.ofNat 255 } else a
  let a := if Fp.lt (Fp.ofNat 255) a.g_ajustado then { a with g_ajustado := Fp.ofNat 255 } else a
  let a := if Fp.lt (Fp.ofNat 255) a.b_ajustado then { a with b_ajustado := Fp.ofNat 255 } else a
  let a := if Fp.lt a.r_ajustado (Fp.ofNat 0) then { a with r_ajustado := Fp.ofNat 0 } else a
  let a := if Fp.lt a.g_ajustado (Fp.ofNat 0) then { a with g_ajustado := Fp.ofNat 0 } else a
  let a := if Fp.lt a.b_ajustado (Fp.ofNat 0) then { a with b_ajustado := Fp.ofNat 0 } else a
  a

/-- The comparison `x > y * c` of two `uint8_t` values and a `double` literal:
both integers are converted to `double` and the product is rounded to `double`. -/
def maiorQue (x y : Nat) (c : Fp) : Prop :=
  Fp.lt (Fp.mul precDouble (Fp.ofNat y) c) (Fp.ofNat x)

instance decMaiorQue (x y : Nat) (c : Fp) : Decidable (maiorQue x y c) :=
  inferInstanceAs (Decidable (Fp.lt _ _))

/-- The call `abs(x - y)` on two `uint8_t` values promoted to `int`. -/
def absDif (x y : Nat) : Nat := Int.natAbs ((x : Int) - (y : Int))

/-- The chain of `if (...) return "...";` statements on the final channel values. -/
def rotular (r_final g_final b_final : Nat) : String :=
  let limiar_baixo : Nat := 20
  let limiar_alto : Nat := 200
  let limiar_rosa : Nat := 40
  if maiorQue r_final g_final (literalDouble 15 10) ∧ maiorQue r_final b_final (literalDouble 15 10) ∧
      r_final > limiar_baixo ∧ (g_final > limiar_rosa ∨ b_final > limiar_rosa) then "Rosa"
  else if maiorQue r_final g_final (literalDouble 18 10) ∧
      maiorQue r_final b_final (literalDouble 18 10) ∧ r_final > limiar_baixo ∧
      g_final ≤ limiar_rosa ∧ b_final ≤ limiar_rosa then "Vermelho"
  else if maiorQue g_final r_final (literalDouble 18 10) ∧
      maiorQue g_final b_final (literalDouble 18 10) ∧ g_final > limiar_baixo then "Verde"
  else if maiorQue b_final r_final (literalDouble 18 10) ∧
      maiorQue b_final g_final (literalDouble 18 10) ∧ b_final > limiar_baixo then "Azul"
  else if maiorQue r_final b_final (literalDouble 20 10) ∧
      maiorQue g_final b_final (literalDouble 20 10) ∧ absDif r_final g_final < 50 ∧
      r_final > limiar_baixo then "Amarelo"
  else if maiorQue g_final r_final (literalDouble 20 10) ∧
      maiorQue b_final r_final (literalDouble 20 10) ∧ absDif g_final b_final < 50 ∧
      g_final > limiar_baixo then "Ciano"
  else if maiorQue r_final g_final (literalDouble 20 10) ∧
      maiorQue b_final g_final (literalDouble 20 10) ∧ absDif r_final b_final < 50 ∧
      r_final > limiar_baixo then "Magenta"
  else if r_final > limiar_alto ∧ g_final > limiar_alto ∧ b_final > limiar_alto then "Branco"
  else if r_final < limiar_baixo ∧ g_final < limiar_baixo ∧ b_final < limiar_baixo then "Escuro"
  else "Indefinido"

/-- The function `const char* obter_nome_da_cor(uint8_t r, uint8_t g, uint8_t b)`. -/
def obter_nome_da_cor (r g b : Nat) : Option String :=
  let o := ordenar r g b
  let a := limitar (corrigir_min o (corrigir_max o ⟨Fp.ofNat r, Fp.ofNat g, Fp.ofNat b⟩))
  (castU8 a.r_ajustado).bind fun r_final =>
  (castU8 a.g_ajustado).bind fun g_final =>
  (castU8 a.b_ajustado).bind fun b_final =>
  some (rotular r_final g_final b_final)

/-! ## `callback_botoes` -/

/-- The screens, `estado_tela_t`. -/
inductive estado_tela_t where
  | TELA_MENU
  | TELA_STATUS
  | TELA_VALORES
deriving DecidableEq, Repr

/-- GPIO of button A. -/
def BOTAO_A : Nat := 5

/-- GPIO of button B. -/
def BOTAO_B : Nat := 6

/-- GPIO of the joystick button. -/
def BOTAO_JOYSTICK : Nat := 22

/-- The two `volatile` globals shared with the interrupt handler. -/
structure Globais where
  tela_atual : estado_tela_t
  ultimo_aperto : Nat
deriving DecidableEq, Repr

/-- Values of the globals at start-up. -/
def Globais.inicial : Globais := ⟨estado_tela_t.TELA_MENU, 0⟩

/-- Subtraction `a - b` on `uint32_t`, modulo `2 ^ 32`. -/
def u32sub (a b : Nat) : Nat := (a + 4294967296 - b % 4294967296) % 4294967296

/-- The handler `void callback_botoes(uint pino, uint32_t eventos)`; `tempo_atual` is the
clock reading `to_ms_since_boot(get_absolute_time())`, a `uint32_t`, that the
handler takes on entry, and `eventos` is not used. -/
def callback_botoes (pino tempo_atual : Nat) (s : Globais) : Globais :=
  if u32sub tempo_atual s.ultimo_aperto < 250 then s
  else
    let s := { s with ultimo_aperto := tempo_atual }
    if s.tela_atual = estado_tela_t.TELA_MENU then
      let s := if pino = BOTAO_A then { s with tela_atual := estado_tela_t.TELA_STATUS } else s
      let s := if pino = BOTAO_B then { s with tela_atual := estado_tela_t.TELA_VALORES } else s
      s
    else
      if pino = BOTAO_JOYSTICK then { s with tela_atual := estado_tela_t.TELA_MENU } else s

/-- Whether an edge at `tempo_atual` gets past the debounce check. -/
def aceito (tempo_atual : Nat) (s : Globais) : Bool :=
  decide (¬ u32sub tempo_atual s.ultimo_aperto < 250)

/-- Number of changes of the active screen (0 or 1) between two states. -/
def mudancas (s s1 : Globais) : Nat := if s.tela_atual = s1.tela_atual then 0 else 1

/-- Number of changes of the active screen over two edges on the same input. -/
def transicoes (pino t1 t2 : Nat) (s : Globais) : Nat :=
  mudancas s (callback_botoes pino t1 s) +
    mudancas (callback_botoes pino t1 s) (callback_botoes pino t2 (callback_botoes pino t1 s))

/-- Number of edges, of two on the same input, that get past the debounce check. -/
def aceitos (pino t1 t2 : Nat) (s : Globais) : Nat :=
  (if aceito t1 s then 1 else 0) + (if aceito t2 (callback_botoes pino t1 s) then 1 else 0)

/-- Whether `(tela, pino)` is one of the three transitions of the table. -/
def na_tabela (tela : estado_tela_t) (pino : Nat) : Bool :=
  match tela with
  | estado_tela_t.TELA_MENU => decide (pino = BOTAO_A ∨ pino = BOTAO_B)
  | _ => decide (pino = BOTAO_JOYSTICK)

/-! ## The main loop -/

/-- The statement
`bool alerta_ativo = (lux < 25) || (strcmp(nome_cor, "Vermelho") == 0 && r8 > 100);`. -/
def alerta_ativo (lux : Nat) (nome_cor : String) (r8 : Nat) : Bool :=
  decide (lux < 25) || (decide (nome_cor = "Vermelho") && decide (r8 > 100))

/-- Argument of the `apito_buzzer` call made in a cycle, `agora_ms` being the
clock reading `to_ms_since_boot(get_absolute_time())`. -/
def buzzer (alerta : Bool) (agora_ms : Nat) : Bool :=
  if alerta then
    if agora_ms % 2000 < 200 then true else false
  else false

/-- The variable `brilho` once the two statements that adjust it have run. -/
def brilho (lux : Nat) : Fp :=
  let brilho := Fp.div precFloat (Fp.ofNat lux) (Fp.ofNat 1000)
  if lux < 5 then Fp.ofNat 0
  else if Fp.lt (Fp.ofNat 1000) brilho then Fp.ofNat 1
  else brilho

/-- Arguments of the `definir_cor_matriz` call made in a cycle; `none` when a
conversion to `uint8_t` is undefined. -/
def cor_matriz (lux r8 g8 b8 : Nat) : Option (Nat × Nat × Nat) :=
  (castU8 (Fp.mul precFloat (Fp.ofNat r8) (brilho lux))).bind fun r =>
  (castU8 (Fp.mul precFloat (Fp.ofNat g8) (brilho lux))).bind fun g =>
  (castU8 (Fp.mul precFloat (Fp.ofNat b8) (brilho lux))).bind fun b =>
  some (r, g, b)

/-- The text copied into `estado_sistema` on the status screen. -/
def estado_sistema (alerta : Bool) (lux : Nat) : String :=
  if alerta then (if lux < 50 then "Luz Baixa" else "Alerta Cor") else "Normal"

/-! ## The classifier as section 4.2 of the specification words it -/

namespace Spec

/-- The labels of the specification's data model. -/
inductive ColorLabel where
  | Red | Green | Blue | Yellow | Cyan | Magenta | Pink | White | Dark | Undefined
deriving DecidableEq, Repr

/-- The string by which the program reports a label. -/
def ColorLabel.nome : ColorLabel → String
  | .Red => "Vermelho"
  | .Green => "Verde"
  | .Blue => "Azul"
  | .Yellow => "Amarelo"
  | .Cyan => "Ciano"
  | .Magenta => "Magenta"
  | .Pink => "Rosa"
  | .White => "Branco"
  | .Dark => "Escuro"
  | .Undefined => "Indefinido"

/-- The three channels, in the order R, G, B in which ties are decided. -/
inductive Canal where
  | R | G | B
deriving DecidableEq, Repr

/-- Position of a channel in the order R, G, B. -/
def Canal.ordem : Canal → Nat
  | .R => 0
  | .G => 1
  | .B => 2

/-- Value of a channel of the sample `(r, g, b)`. -/
def valor (r g b : Nat) : Canal → Nat
  | .R => r
  | .G => g
  | .B => b

/-- Step 1: `x` ranks above `y` when its value is larger, or equal with `x`
earlier in the order R, G, B. -/
def acima (r g b : Nat) (x y : Canal) : Bool :=
  decide (valor r g b y < valor r g b x ∨ (valor r g b x = valor r g b y ∧ x.ordem < y.ordem))

/-- Step 1: rank of a channel, the number of channels above it: 0 is max, 1 mid, 2 min. -/
def posto (r g b : Nat) (c : Canal) : Nat :=
  (if acima r g b .R c then 1 else 0) + (if acima r g b .G c then 1 else 0) +
    (if acima r g b .B c then 1 else 0)

/-- Clamp to `[0, 255]`. -/
def clamp (x : ℚ) : ℚ := max 0 (min 255 x)

/-- Step 2: the corrected value of a channel, as a rational number: times 1.1 for
the max channel, times 0.9 for the min channel, unchanged for the mid channel,
then clamped. -/
def corrigido (r g b : Nat) (c : Canal) : ℚ :=
  clamp (if posto r g b c = 0 then 1.1 * (valor r g b c : ℚ)
    else if posto r g b c = 2 then 0.9 * (valor r g b c : ℚ)
    else (valor r g b c : ℚ))

/-- Step 3: the rules in their fixed priority order, first match wins. -/
def rotulo (R G B : ℚ) : ColorLabel :=
  if R > 1.5 * G ∧ R > 1.5 * B ∧ R > 20 ∧ (G > 40 ∨ B > 40) then .Pink
  else if R > 1.8 * G ∧ R > 1.8 * B ∧ R > 20 ∧ G ≤ 40 ∧ B ≤ 40 then .Red
  else if G > 1.8 * R ∧ G > 1.8 * B ∧ G > 20 then .Green
  else if B > 1.8 * R ∧ B > 1.8 * G ∧ B > 20 then .Blue
  else if R > 2.0 * B ∧ G > 2.0 * B ∧ |R - G| < 50 ∧ R > 20 then .Yellow
  else if G > 2.0 * R ∧ B > 2.0 * R ∧ |G - B| < 50 ∧ G > 20 then .Cyan
  else if R > 2.0 * G ∧ B > 2.0 * G ∧ |R - B| < 50 ∧ R > 20 then .Magenta
  else if R > 200 ∧ G > 200 ∧ B > 200 then .White
  else if R < 20 ∧ G < 20 ∧ B < 20 then .Dark
  else .Undefined

/-- The classifier of section 4.2, read literally: the rules are evaluated on the
corrected values themselves. -/
def classify (r g b : Nat) : ColorLabel :=
  rotulo (corrigido r g b .R) (corrigido r g b .G) (corrigido r g b .B)

/-- The classifier of section 4.2 with each corrected value truncated to an
integer before the rules are evaluated. -/
def classifyTrunc (r g b : Nat) : ColorLabel :=
  rotulo (⌊corrigido r g b .R⌋₊ : ℚ) (⌊corrigido r g b .G⌋₊ : ℚ) (⌊corrigido r g b .B⌋₊ : ℚ)

end Spec

/-! ## Auxiliary definitions for the proofs -/

/-- One channel through the two clamping statements that concern it. -/
def limitar1 (x : Fp) : Fp :=
  let x := if Fp.lt (Fp.ofNat 255) x then Fp.ofNat 255 else x
  if Fp.lt x (Fp.ofNat 0) then Fp.ofNat 0 else x

/-- Integer value with which a channel of tag `c` and value `v` leaves the
correction: `⌊1.1 v⌋` capped at 255 for the strongest channel, `⌊0.9 v⌋` for the
weakest, `v` for the middle one. -/
def canalFinal (o : Ordem) (c : Char) (v : Nat) : Nat :=
  if o.max_cor = c then min 255 (11 * v / 10)
  else if o.min_cor = c then 9 * v / 10
  else v

/-- The rule chain of `rotular` in integer arithmetic. -/
def rotularInt (R G B : Nat) : String :=
  if 3 * G < 2 * R ∧ 3 * B < 2 * R ∧ R > 20 ∧ (G > 40 ∨ B > 40) then "Rosa"
  else if 9 * G < 5 * R ∧ 9 * B < 5 * R ∧ R > 20 ∧ G ≤ 40 ∧ B ≤ 40 then "Vermelho"
  else if 9 * R < 5 * G ∧ 9 * B < 5 * G ∧ G > 20 then "Verde"
  else if 9 * R < 5 * B ∧ 9 * G < 5 * B ∧ B > 20 then "Azul"
  else if 2 * B < R ∧ 2 * B < G ∧ absDif R G < 50 ∧ R > 20 then "Amarelo"
  else if 2 * R < G ∧ 2 * R < B ∧ absDif G B < 50 ∧ G > 20 then "Ciano"
  else if 2 * G < R ∧ 2 * G < B ∧ absDif R B < 50 ∧ R > 20 then "Magenta"
  else if R > 200 ∧ G > 200 ∧ B > 200 then "Branco"
  else if R < 20 ∧ G < 20 ∧ B < 20 then "Escuro"
  else "Indefinido"

/-- The screen that an accepted edge on `pino` leaves, as a function of the screen
it finds. -/
def proxima_tela (tela : estado_tela_t) (pino : Nat) : estado_tela_t :=
  match tela with
  | estado_tela_t.TELA_MENU =>
    if pino = BOTAO_B then estado_tela_t.TELA_VALORES
    else if pino = BOTAO_A then estado_tela_t.TELA_STATUS else estado_tela_t.TELA_MENU
  | other => if pino = BOTAO_JOYSTICK then estado_tela_t.TELA_MENU else other

/-! # Theorems

## Rounding -/

/-- The literals `1.1`, `0.9` and `1.8` denote the doubles with the significands
`0x1199999999999A`, `0x1CCCCCCCCCCCCD` and `0x1CCCCCCCCCCCCD` at the exponents
`2 ^ (-52)`, `2 ^ (-53)` and `2 ^ (-52)`, as in IEEE-754 binary64. -/
theorem literalDouble_bits :
    literalDouble 11 10 = ⟨0x1199999999999A * 2 ^ 29, 81⟩ ∧
    literalDouble 9 10 = ⟨0x1CCCCCCCCCCCCD * 2 ^ 28, 81⟩ ∧
    literalDouble 18 10 = ⟨0x1CCCCCCCCCCCCD * 2 ^ 29, 81⟩ ∧
    literalDouble 15 10 = ⟨3 * 2 ^ 80, 81⟩ ∧
    literalDouble 20 10 = ⟨2 ^ 82, 81⟩ := by
  decide!

theorem bitLenAux_zero (fuel : Nat) : bitLenAux fuel 0 = 0 := by
  cases fuel <;> simp [bitLenAux]

/-- With fuel `fuel ≥ n` the count brackets `n` between two powers of two. -/
theorem bitLenAux_spec (fuel : Nat) : ∀ n, n ≤ fuel →
    n < 2 ^ bitLenAux fuel n ∧ (n ≠ 0 → 2 ^ (bitLenAux fuel n - 1) ≤ n) := by
  induction fuel with
  | zero =>
    intro n hn
    have : n = 0 := by omega
    subst this
    simp [bitLenAux]
  | succ f ih =>
    intro n hn
    by_cases h0 : n = 0
    · subst h0
      simp [bitLenAux]
    · have hle : n / 2 ≤ f := by omega
      obtain ⟨h1, h2⟩ := ih (n / 2) hle
      simp only [bitLenAux, h0, if_false, Nat.add_sub_cancel]
      refine ⟨?_, fun _ => ?_⟩
      · rw [pow_succ]; omega
      · by_cases h3 : n / 2 = 0
        · rw [h3, bitLenAux_zero]; simp; omega
        · have h4 := h2 h3
          have h5 : 0 < bitLenAux f (n / 2) := by
            rcases Nat.eq_zero_or_pos (bitLenAux f (n / 2)) with h | h
            · rw [h] at h1; simp at h1; omega
            · exact h
          have h6 : 2 ^ bitLenAux f (n / 2) = 2 ^ (bitLenAux f (n / 2) - 1) * 2 := by
            rw [← pow_succ]; congr 1; omega
          omega

theorem lt_two_pow_bitLen (n : Nat) : n < 2 ^ bitLen n := (bitLenAux_spec n n le_rfl).1

theorem two_pow_bitLen_le (n : Nat) (h : n ≠ 0) : 2 ^ (bitLen n - 1) ≤ n :=
  (bitLenAux_spec n n le_rfl).2 h

namespace Fp

theorem roundTo_sc (p m sc : Nat) : (roundTo p m sc).sc = sc := by
  unfold roundTo
  simp only
  split <;> rfl

theorem roundTo_zero (p sc : Nat) : roundTo p 0 sc = ⟨0, sc⟩ := by
  have h : bitLen 0 = 0 := rfl
  simp [roundTo, h]

theorem floor_mul_le_roundTo_man (p m sc : Nat) (h : ¬ bitLen m ≤ p) :
    m / 2 ^ (bitLen m - p) * 2 ^ (bitLen m - p) ≤ (roundTo p m sc).man := by
  unfold roundTo
  simp only [h, if_false]
  apply Nat.mul_le_mul_right
  split <;> omega

/-- Rounding never falls below a value `T / 2 ^ j` of the target format that the
argument reaches. -/
theorem roundTo_man_ge (p m sc T j : Nat) (hp : 0 < p) (hT : T < 2 ^ p)
    (h : T * 2 ^ sc ≤ m * 2 ^ j) : T * 2 ^ sc ≤ (roundTo p m sc).man * 2 ^ j := by
  by_cases hlen : bitLen m ≤ p
  · simpa [roundTo, hlen] using h
  · have hfl := floor_mul_le_roundTo_man p m sc hlen
    refine le_trans ?_ (Nat.mul_le_mul_right _ hfl)
    set k := bitLen m - p with hk
    have hm0 : m ≠ 0 := by
      rintro rfl
      exact hlen (Nat.zero_le _)
    have hlow := two_pow_bitLen_le m hm0
    have hkpos : 0 < 2 ^ k := Nat.two_pow_pos _
    have hjpos : 0 < 2 ^ j := Nat.two_pow_pos _
    by_cases hsc : k + j ≤ sc
    · obtain ⟨d, rfl⟩ := Nat.exists_eq_add_of_le hsc
      have e1 : T * 2 ^ (k + j + d) = T * 2 ^ d * 2 ^ k * 2 ^ j := by ring
      rw [e1] at h ⊢
      have h2 : T * 2 ^ d * 2 ^ k ≤ m := Nat.le_of_mul_le_mul_right h hjpos
      have h3 : T * 2 ^ d ≤ m / 2 ^ k := (Nat.le_div_iff_mul_le hkpos).2 h2
      exact Nat.mul_le_mul_right _ (Nat.mul_le_mul_right _ h3)
    · have hlen1 : bitLen m - 1 = (p - 1) + k := by omega
      rw [hlen1, pow_add] at hlow
      have h3 : 2 ^ (p - 1) ≤ m / 2 ^ k := (Nat.le_div_iff_mul_le hkpos).2 hlow
      have h4 : 2 ^ (p - 1) * 2 ^ k * 2 ^ j ≤ m / 2 ^ k * 2 ^ k * 2 ^ j :=
        Nat.mul_le_mul_right _ (Nat.mul_le_mul_right _ h3)
      refine le_trans ?_ h4
      have h5 : T * 2 ^ sc ≤ 2 ^ p * 2 ^ sc := Nat.mul_le_mul_right _ hT.le
      refine le_trans h5 ?_
      rw [← pow_add, ← pow_add, ← pow_add]
      apply Nat.pow_le_pow_right (by norm_num)
      omega

end Fp

theorem literalDouble_255 : literalDouble 255 1 = ⟨255 * 2 ^ 81, 81⟩ := by decide!

theorem normalizar_cor_low : ∀ raw, raw < 256 → normalizar_cor raw = some raw := by decide!

theorem normalizar_cor_high (raw : Nat) (h : 256 ≤ raw) : normalizar_cor raw = some 255 := by
  have hq : 257 * 2 ^ 81 ≤ (Fp.div precFloat (Fp.ofNat raw) (Fp.ofNat 255)).man * 2 ^ 8 := by
    unfold Fp.div
    simp only [Fp.ofNat]
    apply Fp.roundTo_man_ge _ _ _ _ _ (by decide) (by decide)
    have h1 : 257 * 2 ^ 72 ≤ raw * 2 ^ 0 * 2 ^ 80 / (255 * 2 ^ 0) := by
      rw [Nat.le_div_iff_mul_le (by norm_num)]
      omega
    omega
  have hsc : (Fp.div precFloat (Fp.ofNat raw) (Fp.ofNat 255)).sc = 81 := Fp.roundTo_sc _ _ _
  unfold normalizar_cor
  dsimp only
  generalize Fp.div precFloat (Fp.ofNat raw) (Fp.ofNat 255) = x1 at hq hsc ⊢
  have hm : 65535 * 2 ^ 162 ≤ (Fp.mul precDouble x1 (literalDouble 255 1)).man * 2 ^ 8 := by
    rw [literalDouble_255]
    unfold Fp.mul
    simp only [hsc]
    apply Fp.roundTo_man_ge _ _ _ _ _ (by decide) (by decide)
    omega
  have hmsc : (Fp.mul precDouble x1 (literalDouble 255 1)).sc = 162 := by
    rw [literalDouble_255]
    unfold Fp.mul
    simp only [Fp.roundTo_sc, hsc]
  generalize Fp.mul precDouble x1 (literalDouble 255 1) = x2 at hm hmsc ⊢
  have hr : 65535 * 2 ^ 162 ≤ (Fp.round precFloat x2).man * 2 ^ 8 := by
    unfold Fp.round
    rw [hmsc]
    exact Fp.roundTo_man_ge _ _ _ _ _ (by decide) (by decide) hm
  have hrsc : (Fp.round precFloat x2).sc = 162 := by
    unfold Fp.round
    rw [Fp.roundTo_sc, hmsc]
  generalize Fp.round precFloat x2 = x3 at hr hrsc ⊢
  have h0 : ¬ Fp.lt x3 (Fp.ofNat 0) := by
    simp [Fp.lt, Fp.ofNat]
  have h255 : Fp.lt (Fp.ofNat 255) x3 := by
    simp only [Fp.lt, Fp.ofNat, hrsc]
    omega
  simp only [h0, h255, if_false, if_true]
  rfl

/-! ## The classifier in integer arithmetic -/

theorem limitar_r (a : Ajustado) : (limitar a).r_ajustado = limitar1 a.r_ajustado := by
  unfold limitar limitar1
  dsimp only
  split_ifs <;> rfl

theorem limitar_g (a : Ajustado) : (limitar a).g_ajustado = limitar1 a.g_ajustado := by
  unfold limitar limitar1
  dsimp only
  split_ifs <;> rfl

theorem limitar_b (a : Ajustado) : (limitar a).b_ajustado = limitar1 a.b_ajustado := by
  unfold limitar limitar1
  dsimp only
  split_ifs <;> rfl

theorem cast_max : ∀ v, v < 256 →
    castU8 (limitar1 (mulAtrib (Fp.ofNat v) (literalDouble 11 10))) = some (min 255 (11 * v / 10)) := by
  decide!

theorem cast_min : ∀ v, v < 256 →
    castU8 (limitar1 (mulAtrib (Fp.ofNat v) (literalDouble 9 10))) = some (9 * v / 10) := by
  decide!

theorem cast_mid : ∀ v, v < 256 → castU8 (limitar1 (Fp.ofNat v)) = some v := by
  decide!

theorem trunc_15 : ∀ y, y < 256 →
    (Fp.mul precDouble (Fp.ofNat y) (literalDouble 15 10)).trunc = 3 * y / 2 := by
  decide!

theorem trunc_18 : ∀ y, y < 256 →
    (Fp.mul precDouble (Fp.ofNat y) (literalDouble 18 10)).trunc = 9 * y / 5 := by
  decide!

theorem trunc_20 : ∀ y, y < 256 →
    (Fp.mul precDouble (Fp.ofNat y) (literalDouble 20 10)).trunc = 2 * y := by
  decide!

/-- An integer exceeds a value exactly when it exceeds its integer part. -/
theorem maiorQue_iff (x y : Nat) (c : Fp) :
    maiorQue x y c ↔ (Fp.mul precDouble (Fp.ofNat y) c).trunc < x := by
  unfold maiorQue Fp.lt Fp.trunc Fp.ofNat
  rw [Nat.div_lt_iff_lt_mul (Nat.two_pow_pos _)]
  simp

theorem maiorQue_15 (x y : Nat) (hy : y < 256) :
    maiorQue x y (literalDouble 15 10) ↔ 3 * y < 2 * x := by
  rw [maiorQue_iff, trunc_15 y hy]
  omega

theorem maiorQue_18 (x y : Nat) (hy : y < 256) :
    maiorQue x y (literalDouble 18 10) ↔ 9 * y < 5 * x := by
  rw [maiorQue_iff, trunc_18 y hy]
  omega

theorem maiorQue_20 (x y : Nat) (hy : y < 256) :
    maiorQue x y (literalDouble 20 10) ↔ 2 * y < x := by
  rw [maiorQue_iff, trunc_20 y hy]

theorem rotular_eq_rotularInt (R G B : Nat) (hR : R < 256) (hG : G < 256) (hB : B < 256) :
    rotular R G B = rotularInt R G B := by
  unfold rotular rotularInt
  simp only [maiorQue_15 _ _ hR, maiorQue_15 _ _ hG, maiorQue_15 _ _ hB,
    maiorQue_18 _ _ hR, maiorQue_18 _ _ hG, maiorQue_18 _ _ hB,
    maiorQue_20 _ _ hR, maiorQue_20 _ _ hG, maiorQue_20 _ _ hB]

theorem canalFinal_lt (o : Ordem) (c : Char) (v : Nat) (hv : v < 256) :
    canalFinal o c v < 256 := by
  unfold canalFinal
  split_ifs <;> omega

/-- The floating-point computation of `obter_nome_da_cor` in integer arithmetic. -/
theorem obter_nome_da_cor_eq (r g b : Nat) (hr : r < 256) (hg : g < 256) (hb : b < 256) :
    obter_nome_da_cor r g b =
      some (rotularInt (canalFinal (ordenar r g b) 'r' r) (canalFinal (ordenar r g b) 'g' g)
        (canalFinal (ordenar r g b) 'b' b)) := by
  have hcr := canalFinal_lt (ordenar r g b) 'r' r hr
  have hcg := canalFinal_lt (ordenar r g b) 'g' g hg
  have hcb := canalFinal_lt (ordenar r g b) 'b' b hb
  rw [← rotular_eq_rotularInt _ _ _ hcr hcg hcb]
  unfold obter_nome_da_cor
  simp only [limitar_r, limitar_g, limitar_b]
  have h1 := cast_max r hr
  have h2 := cast_max g hg
  have h3 := cast_max b hb
  have h4 := cast_min r hr
  have h5 := cast_min g hg
  have h6 := cast_min b hb
  have h7 := cast_mid r hr
  have h8 := cast_mid g hg
  have h9 := cast_mid b hb
  unfold ordenar
  split_ifs <;>
    simp [corrigir_max, corrigir_min, canalFinal, h1, h2, h3, h4, h5, h6, h7, h8, h9]

theorem canalFinal_r (r g b : Nat) :
    canalFinal (ordenar r g b) 'r' r =
      if g ≤ r ∧ b ≤ r then min 255 (11 * r / 10) else if r < g ∧ r < b then 9 * r / 10 else r := by
  unfold canalFinal ordenar
  split_ifs <;> first | rfl | omega | simp_all

theorem canalFinal_g (r g b : Nat) :
    canalFinal (ordenar r g b) 'g' g =
      if r < g ∧ b ≤ g then min 255 (11 * g / 10) else if g ≤ r ∧ g < b then 9 * g / 10 else g := by
  unfold canalFinal ordenar
  split_ifs <;> first | rfl | omega | simp_all

theorem canalFinal_b (r g b : Nat) :
    canalFinal (ordenar r g b) 'b' b =
      if r < b ∧ g < b then min 255 (11 * b / 10) else if b ≤ r ∧ b ≤ g then 9 * b / 10 else b := by
  unfold canalFinal ordenar
  split_ifs <;> first | rfl | omega | simp_all

namespace Spec

theorem posto_R (r g b : Nat) :
    posto r g b .R = (if r < g then 1 else 0) + (if r < b then 1 else 0) := by
  simp [posto, acima, valor, Canal.ordem]

theorem posto_G (r g b : Nat) :
    posto r g b .G = (if g ≤ r then 1 else 0) + (if g < b then 1 else 0) := by
  simp only [posto, acima, valor, Canal.ordem]
  split_ifs <;> simp_all <;> omega

theorem posto_B (r g b : Nat) :
    posto r g b .B = (if b ≤ r then 1 else 0) + (if b ≤ g then 1 else 0) := by
  simp only [posto, acima, valor, Canal.ordem]
  split_ifs <;> simp_all <;> omega

theorem floor_min_255 (x : ℚ) : ⌊min (255 : ℚ) x⌋₊ = min 255 ⌊x⌋₊ := by
  have h := Nat.floor_mono.map_min (a := (255 : ℚ)) (b := x)
  rw [h]
  simp

theorem floor_clamp_max (v : Nat) : ⌊clamp (1.1 * (v : ℚ))⌋₊ = min 255 (11 * v / 10) := by
  have h0 : (0 : ℚ) ≤ min 255 (1.1 * (v : ℚ)) := le_min (by norm_num) (by positivity)
  have e : (1.1 * (v : ℚ)) = ((11 * v : ℕ) : ℚ) / ((10 : ℕ) : ℚ) := by
    push_cast; ring
  unfold clamp
  rw [max_eq_right h0, floor_min_255, e, Nat.floor_div_eq_div]

theorem floor_clamp_min (v : Nat) (hv : v < 256) : ⌊clamp (0.9 * (v : ℚ))⌋₊ = 9 * v / 10 := by
  have h0 : (0 : ℚ) ≤ min 255 (0.9 * (v : ℚ)) := le_min (by norm_num) (by positivity)
  have e : (0.9 * (v : ℚ)) = ((9 * v : ℕ) : ℚ) / ((10 : ℕ) : ℚ) := by
    push_cast; ring
  unfold clamp
  rw [max_eq_right h0, floor_min_255, e, Nat.floor_div_eq_div]
  omega

theorem floor_clamp_mid (v : Nat) (hv : v < 256) : ⌊clamp (v : ℚ)⌋₊ = v := by
  have h0 : (0 : ℚ) ≤ min 255 (v : ℚ) := le_min (by norm_num) (by positivity)
  unfold clamp
  rw [max_eq_right h0, floor_min_255, Nat.floor_natCast]
  omega

theorem floor_corrigido_R (r g b : Nat) (hr : r < 256) :
    ⌊corrigido r g b .R⌋₊ = canalFinal (ordenar r g b) 'r' r := by
  rw [canalFinal_r]
  unfold corrigido
  rw [posto_R]
  simp only [valor]
  have h1 := floor_clamp_max r
  have h2 := floor_clamp_min r hr
  have h3 := floor_clamp_mid r hr
  split_ifs <;> first | assumption | contradiction | omega

theorem floor_corrigido_G (r g b : Nat) (hg : g < 256) :
    ⌊corrigido r g b .G⌋₊ = canalFinal (ordenar r g b) 'g' g := by
  rw [canalFinal_g]
  unfold corrigido
  rw [posto_G]
  simp only [valor]
  have h1 := floor_clamp_max g
  have h2 := floor_clamp_min g hg
  have h3 := floor_clamp_mid g hg
  split_ifs <;> first | assumption | contradiction | omega

theorem floor_corrigido_B (r g b : Nat) (hb : b < 256) :
    ⌊corrigido r g b .B⌋₊ = canalFinal (ordenar r g b) 'b' b := by
  rw [canalFinal_b]
  unfold corrigido
  rw [posto_B]
  simp only [valor]
  have h1 := floor_clamp_max b
  have h2 := floor_clamp_min b hb
  have h3 := floor_clamp_mid b hb
  split_ifs <;> first | assumption | contradiction | omega

theorem gt_15_iff (x y : Nat) : (x : ℚ) > 1.5 * (y : ℚ) ↔ 3 * y < 2 * x := by
  constructor
  · intro h
    have h' : ((3 * y : ℕ) : ℚ) < ((2 * x : ℕ) : ℚ) := by
      push_cast
      norm_num at h
      linarith
    exact_mod_cast h'
  · intro h
    have h' : ((3 * y : ℕ) : ℚ) < ((2 * x : ℕ) : ℚ) := by exact_mod_cast h
    push_cast at h'
    norm_num
    linarith

theorem gt_18_iff (x y : Nat) : (x : ℚ) > 1.8 * (y : ℚ) ↔ 9 * y < 5 * x := by
  constructor
  · intro h
    have h' : ((9 * y : ℕ) : ℚ) < ((5 * x : ℕ) : ℚ) := by
      push_cast
      norm_num at h
      linarith
    exact_mod_cast h'
  · intro h
    have h' : ((9 * y : ℕ) : ℚ) < ((5 * x : ℕ) : ℚ) := by exact_mod_cast h
    push_cast at h'
    norm_num
    linarith

theorem gt_20_iff (x y : Nat) : (x : ℚ) > 2.0 * (y : ℚ) ↔ 2 * y < x := by
  constructor
  · intro h
    have h' : ((2 * y : ℕ) : ℚ) < ((x : ℕ) : ℚ) := by
      push_cast
      norm_num at h
      linarith
    exact_mod_cast h'
  · intro h
    have h' : ((2 * y : ℕ) : ℚ) < ((x : ℕ) : ℚ) := by exact_mod_cast h
    push_cast at h'
    norm_num
    linarith

theorem abs_lt_50_iff (x y : Nat) : |(x : ℚ) - (y : ℚ)| < 50 ↔ absDif x y < 50 := by
  unfold absDif
  rw [abs_lt]
  constructor
  · rintro ⟨h1, h2⟩
    have h1' : ((y : ℕ) : ℚ) < ((x + 50 : ℕ) : ℚ) := by push_cast; linarith
    have h2' : ((x : ℕ) : ℚ) < ((y + 50 : ℕ) : ℚ) := by push_cast; linarith
    have k1 : y < x + 50 := by exact_mod_cast h1'
    have k2 : x < y + 50 := by exact_mod_cast h2'
    omega
  · intro h
    have h1 : y < x + 50 := by omega
    have h2 : x < y + 50 := by omega
    have h1' : ((y : ℕ) : ℚ) < ((x + 50 : ℕ) : ℚ) := by exact_mod_cast h1
    have h2' : ((x : ℕ) : ℚ) < ((y + 50 : ℕ) : ℚ) := by exact_mod_cast h2
    push_cast at h1' h2'
    constructor <;> linarith

theorem rotularInt_eq_rotulo (R G B : Nat) :
    rotularInt R G B = (rotulo (R : ℚ) (G : ℚ) (B : ℚ)).nome := by
  unfold rotularInt rotulo
  simp only [gt_15_iff, gt_18_iff, gt_20_iff, abs_lt_50_iff, gt_iff_lt, Nat.ofNat_lt_cast,
    Nat.cast_lt_ofNat, Nat.cast_le_ofNat, apply_ite ColorLabel.nome]
  rfl

end Spec

theorem rotularInt_grey (v : Nat) (hv : v < 256) :
    rotularInt (min 255 (11 * v / 10)) v (9 * v / 10) =
      if 224 ≤ v then "Branco" else if v ≤ 18 then "Escuro" else "Indefinido" := by
  unfold rotularInt
  rw [if_neg (by omega), if_neg (by omega), if_neg (by omega), if_neg (by omega),
    if_neg (by omega), if_neg (by omega), if_neg (by omega)]
  split_ifs <;> first | rfl | omega

theorem obter_nome_da_cor_grey (v : Nat) (hv : v < 256) :
    obter_nome_da_cor v v v =
      some (if 224 ≤ v then "Branco" else if v ≤ 18 then "Escuro" else "Indefinido") := by
  rw [obter_nome_da_cor_eq v v v hv hv hv, canalFinal_r, canalFinal_g, canalFinal_b]
  simp only [le_refl, and_self, if_true, lt_irrefl, false_and, and_false, if_false]
  rw [rotularInt_grey v hv]

/-- C1, amended. For every sample `(r, g, b)` in 0..255 `obter_nome_da_cor` returns the
label of the first rule of section 4.2, in the order Pink, Red, Green, Blue, Yellow,
Cyan, Magenta, White, Dark and else Undefined, that holds on the corrected values
truncated to integers: the max channel times 1.1, the min channel times 0.9, the mid
channel unchanged, each clamped to `[0, 255]` and then rounded down, ties ranked
R over G over B.  In particular the sample `(200, 50, 10)` is Pink, `"Rosa"`. -/
theorem obter_nome_da_cor_refines_spec (r g b : Nat) (hr : r < 256) (hg : g < 256)
    (hb : b < 256) :
    obter_nome_da_cor r g b = some (Spec.classifyTrunc r g b).nome ∧
      obter_nome_da_cor 200 50 10 = some "Rosa" := by
  refine ⟨?_, by decide!⟩
  rw [obter_nome_da_cor_eq r g b hr hg hb, Spec.rotularInt_eq_rotulo]
  unfold Spec.classifyTrunc
  rw [Spec.floor_corrigido_R r g b hr, Spec.floor_corrigido_G r g b hg,
    Spec.floor_corrigido_B r g b hb]

/-- Witness of C1: the sample `(90, 200, 30)` gets the label that the truncated
corrected values 90, 220 and 27 give, Green. -/
theorem obter_nome_da_cor_refines_spec_witness :
    obter_nome_da_cor 90 200 30 = some (Spec.classifyTrunc 90 200 30).nome :=
  (obter_nome_da_cor_refines_spec 90 200 30 (by decide) (by decide) (by decide)).1

/-- C1 as stated fails at `(19, 0, 0)`: on the corrected values themselves, 20.9, 0 and 0,
the Red rule holds, while the program evaluates the rules on 20, 0 and 0 and
returns `"Indefinido"`. -/
theorem obter_nome_da_cor_counterexample :
    Spec.corrigido 19 0 0 Spec.Canal.R = 209 / 10 ∧
    Spec.classify 19 0 0 = Spec.ColorLabel.Red ∧
    obter_nome_da_cor 19 0 0 = some "Indefinido" ∧
    obter_nome_da_cor 19 0 0 ≠ some (Spec.classify 19 0 0).nome := by
  decide!

/-- C2, amended. A grey sample `R = G = B = v` is classified as White, `"Branco"`,
exactly when `v ≥ 224`, and the sample `R = G = B = 5` as Dark, `"Escuro"`. -/
theorem obter_nome_da_cor_neutral (v : Nat) (hv : v < 256) :
    (obter_nome_da_cor v v v = some "Branco" ↔ 224 ≤ v) ∧
      obter_nome_da_cor 5 5 5 = some "Escuro" := by
  have e1 : ("Escuro" : String) ≠ "Branco" := by decide
  have e2 : ("Indefinido" : String) ≠ "Branco" := by decide
  refine ⟨?_, ?_⟩
  · rw [obter_nome_da_cor_grey v hv]
    split_ifs <;> simp [*]
  · rw [obter_nome_da_cor_grey 5 (by decide)]
    rfl

/-- Witness of C2: the grey sample `230` is White. -/
theorem obter_nome_da_cor_neutral_witness : obter_nome_da_cor 230 230 230 = some "Branco" :=
  (obter_nome_da_cor_neutral 230 (by decide)).1.2 (by decide)

/-- C2 as stated fails: the grey sample `220` is classified as `"Indefinido"`, its
channels being corrected to 242, 220 and 198. -/
theorem obter_nome_da_cor_220 :
    obter_nome_da_cor 220 220 220 = some "Indefinido" ∧
      obter_nome_da_cor 220 220 220 ≠ some "Branco" := by
  decide!

/-! ## Normalisation, brightness, alert and status text -/

/-- C7. `normalizar_cor` is the identity on the raw values 0..255 and returns
exactly 255 for every larger raw value: in all cases the conversion is defined
and yields `min raw 255`. -/
theorem normalizar_cor_identity_saturate (raw : Nat) :
    normalizar_cor raw = some (min raw 255) := by
  rcases Nat.lt_or_ge raw 256 with h | h
  · rw [normalizar_cor_low raw h, Nat.min_eq_left (by omega)]
  · rw [normalizar_cor_high raw h, Nat.min_eq_right (by omega)]

/-- C8. Brightness floor: for every `lux < 5` and every colour the arguments of
`definir_cor_matriz` are `(0, 0, 0)`. -/
theorem cor_matriz_dark_below_5 (lux r8 g8 b8 : Nat) (h : lux < 5) :
    cor_matriz lux r8 g8 b8 = some (0, 0, 0) := by
  have hb : brilho lux = Fp.ofNat 0 := by simp [brilho, h]
  have hz : ∀ v, castU8 (Fp.mul precFloat (Fp.ofNat v) (Fp.ofNat 0)) = some 0 := by
    intro v
    simp only [Fp.mul, Fp.ofNat, Nat.mul_zero, Fp.roundTo_zero]
    rfl
  simp only [cor_matriz, hb, hz]
  rfl

/-- Witness of C8 at `lux = 3` and the colour `(200, 100, 50)`. -/
theorem cor_matriz_dark_below_5_witness : cor_matriz 3 200 100 50 = some (0, 0, 0) :=
  cor_matriz_dark_below_5 3 200 100 50 (by decide)

/-- C3, evaluated at the failing input: with `lux = 2000` the factor stays `2.0`, since
the clamp compares `brilho` with `1000.0f`, and the colour `(100, 100, 100)`
reaches the matrix as `(200, 200, 200)`; for the colour `(200, 200, 200)` the
conversions to `uint8_t` are undefined. -/
theorem cor_matriz_lux_2000 :
    brilho 2000 = Fp.div precFloat (Fp.ofNat 2000) (Fp.ofNat 1000) ∧
      (brilho 2000).trunc = 2 ∧ cor_matriz 2000 100 100 100 = some (200, 200, 200) ∧
      cor_matriz 2000 200 200 200 = none := by
  decide!

/-- C6. The buzzer is commanded on exactly when the alert is active and the clock
is in the first 200 ms of its 2000 ms window, the alert being active when
`lux < 25` or the label is `"Vermelho"` with `r8 > 100`; with the sample values of
the specification. -/
theorem buzzer_iff (lux : Nat) (nome_cor : String) (r8 agora_ms : Nat) :
    (alerta_ativo lux nome_cor r8 = true ↔ (lux < 25 ∨ (nome_cor = "Vermelho" ∧ r8 > 100))) ∧
    (buzzer (alerta_ativo lux nome_cor r8) agora_ms = true ↔
      ((lux < 25 ∨ (nome_cor = "Vermelho" ∧ r8 > 100)) ∧ agora_ms % 2000 < 200)) ∧
    alerta_ativo 10 "Verde" r8 = true ∧
    alerta_ativo 200 "Vermelho" 150 = true ∧
    alerta_ativo 200 "Verde" 150 = false ∧
    buzzer true 1999 = false ∧
    buzzer true 2050 = true := by
  have h1 : alerta_ativo lux nome_cor r8 = true ↔
      (lux < 25 ∨ (nome_cor = "Vermelho" ∧ r8 > 100)) := by
    simp [alerta_ativo]
  refine ⟨h1, ?_, ?_, by decide, by decide, by decide, by decide⟩
  · rw [← h1]
    cases alerta_ativo lux nome_cor r8 <;> simp [buzzer]
  · simp [alerta_ativo]

/-- C9. On the status screen the state text is `"Luz Baixa"` exactly when the alert
is active and `lux < 50`, `"Alerta Cor"` exactly when it is active and `lux ≥ 50`,
`"Normal"` exactly when it is not active; so an alert raised by the colour rule
alone with `25 ≤ lux < 50` is reported as `"Luz Baixa"`. -/
theorem estado_sistema_iff (alerta : Bool) (lux r8 : Nat) :
    (estado_sistema alerta lux = "Luz Baixa" ↔ (alerta = true ∧ lux < 50)) ∧
    (estado_sistema alerta lux = "Alerta Cor" ↔ (alerta = true ∧ lux ≥ 50)) ∧
    (estado_sistema alerta lux = "Normal" ↔ alerta = false) ∧
    (25 ≤ lux → lux < 50 → r8 > 100 →
      estado_sistema (alerta_ativo lux "Vermelho" r8) lux = "Luz Baixa") := by
  have e1 : ("Luz Baixa" : String) ≠ "Alerta Cor" := by decide
  have e2 : ("Luz Baixa" : String) ≠ "Normal" := by decide
  have e3 : ("Alerta Cor" : String) ≠ "Normal" := by decide
  refine ⟨?_, ?_, ?_, ?_⟩
  · cases alerta <;> by_cases h : lux < 50 <;> simp [estado_sistema, h, e1, e2, e3, Ne.symm e1, Ne.symm e2, Ne.symm e3]
  · cases alerta <;> by_cases h : lux < 50 <;>
      simp [estado_sistema, h, e1, e2, e3, Ne.symm e1, Ne.symm e2, Ne.symm e3]
    omega
  · cases alerta <;> by_cases h : lux < 50 <;> simp [estado_sistema, h, e1, e2, e3, Ne.symm e1, Ne.symm e2, Ne.symm e3]
  · intro h1 h2 h3
    have ha : alerta_ativo lux "Vermelho" r8 = true := by simp [alerta_ativo, h3]
    simp [estado_sistema, ha, h2]

/-- Witness of C9: a colour-rule alert at `lux = 30` is reported as `"Luz Baixa"`. -/
theorem estado_sistema_iff_witness :
    estado_sistema (alerta_ativo 30 "Vermelho" 150) 30 = "Luz Baixa" :=
  (estado_sistema_iff true 30 150).2.2.2 (by decide) (by decide) (by decide)

/-! ## The navigation state machine -/

/-- C5. An edge that passes the debounce check follows the transition table:
`TELA_MENU` with `BOTAO_A` gives `TELA_STATUS`, `TELA_MENU` with `BOTAO_B` gives
`TELA_VALORES`, any other screen with `BOTAO_JOYSTICK` gives `TELA_MENU`, and
every other pair of screen and input keeps the screen (so `BOTAO_A` on
`TELA_STATUS` and `BOTAO_JOYSTICK` on `TELA_MENU` change nothing); the screen
is one of the three values and starts as `TELA_MENU`. -/
theorem callback_botoes_table (pino tempo_atual : Nat) (s : Globais)
    (h : ¬ u32sub tempo_atual s.ultimo_aperto < 250) :
    (s.tela_atual = estado_tela_t.TELA_MENU → pino = BOTAO_A →
      (callback_botoes pino tempo_atual s).tela_atual = estado_tela_t.TELA_STATUS) ∧
    (s.tela_atual = estado_tela_t.TELA_MENU → pino = BOTAO_B →
      (callback_botoes pino tempo_atual s).tela_atual = estado_tela_t.TELA_VALORES) ∧
    (s.tela_atual = estado_tela_t.TELA_STATUS ∨ s.tela_atual = estado_tela_t.TELA_VALORES →
      pino = BOTAO_JOYSTICK →
      (callback_botoes pino tempo_atual s).tela_atual = estado_tela_t.TELA_MENU) ∧
    (na_tabela s.tela_atual pino = false →
      (callback_botoes pino tempo_atual s).tela_atual = s.tela_atual) ∧
    (s.tela_atual = estado_tela_t.TELA_STATUS → pino = BOTAO_A →
      (callback_botoes pino tempo_atual s).tela_atual = estado_tela_t.TELA_STATUS) ∧
    (s.tela_atual = estado_tela_t.TELA_MENU → pino = BOTAO_JOYSTICK →
      (callback_botoes pino tempo_atual s).tela_atual = estado_tela_t.TELA_MENU) ∧
    (s.tela_atual = estado_tela_t.TELA_MENU ∨ s.tela_atual = estado_tela_t.TELA_STATUS ∨
      s.tela_atual = estado_tela_t.TELA_VALORES) ∧
    Globais.inicial.tela_atual = estado_tela_t.TELA_MENU := by
  obtain ⟨tela, ultimo⟩ := s
  simp only at h
  refine ⟨?_, ?_, ?_, ?_, ?_, ?_, ?_, rfl⟩
  · rintro ht rfl
    simp only at ht
    subst ht
    simp [callback_botoes, h, BOTAO_A, BOTAO_B]
  · rintro ht rfl
    simp only at ht
    subst ht
    simp [callback_botoes, h, BOTAO_A, BOTAO_B]
  · rintro ht rfl
    simp only at ht
    rcases ht with ht | ht <;> subst ht <;> simp [callback_botoes, h]
  · intro ht
    cases tela <;> simp [na_tabela] at ht <;>
      simp [callback_botoes, h, ht]
  · rintro ht rfl
    simp only at ht
    subst ht
    simp [callback_botoes, h, BOTAO_A, BOTAO_JOYSTICK]
  · rintro ht rfl
    simp only at ht
    subst ht
    simp [callback_botoes, h, BOTAO_A, BOTAO_B, BOTAO_JOYSTICK]
  · cases tela <;> simp

/-- Witness of C5: from the start-up state an edge on `BOTAO_A` at 1000 ms passes
the check and leads to `TELA_STATUS`. -/
theorem callback_botoes_table_witness :
    (callback_botoes BOTAO_A 1000 Globais.inicial).tela_atual = estado_tela_t.TELA_STATUS :=
  (callback_botoes_table BOTAO_A 1000 Globais.inicial (by decide)).1 rfl rfl

/-- C10. An edge that passes the time check stores its time in `ultimo_aperto`
whether or not the screen changes; an edge that fails it changes neither global;
hence on `TELA_STATUS` an accepted edge on `BOTAO_A` followed less than 250 ms
later by an edge on `BOTAO_JOYSTICK` leaves the screen on `TELA_STATUS`. -/
theorem callback_botoes_timestamp (pino tempo_atual t2 : Nat) (s : Globais) :
    (¬ u32sub tempo_atual s.ultimo_aperto < 250 →
      (callback_botoes pino tempo_atual s).ultimo_aperto = tempo_atual) ∧
    (u32sub tempo_atual s.ultimo_aperto < 250 → callback_botoes pino tempo_atual s = s) ∧
    (s.tela_atual = estado_tela_t.TELA_STATUS → ¬ u32sub tempo_atual s.ultimo_aperto < 250 →
      u32sub t2 tempo_atual < 250 →
      (callback_botoes BOTAO_JOYSTICK t2 (callback_botoes BOTAO_A tempo_atual s)).tela_atual =
        estado_tela_t.TELA_STATUS) := by
  obtain ⟨tela, ultimo⟩ := s
  refine ⟨?_, ?_, ?_⟩
  · intro h
    simp only at h
    cases tela <;> simp only [callback_botoes, h, if_false] <;> split_ifs <;> rfl
  · intro h
    simp only at h
    simp [callback_botoes, h]
  · intro ht h h2
    simp only at ht h
    subst ht
    have e : callback_botoes BOTAO_A tempo_atual ⟨estado_tela_t.TELA_STATUS, ultimo⟩ =
        ⟨estado_tela_t.TELA_STATUS, tempo_atual⟩ := by
      simp [callback_botoes, h, BOTAO_A, BOTAO_JOYSTICK]
    rw [e]
    simp [callback_botoes, h2]

/-- Witness of C10: on `TELA_STATUS`, `BOTAO_A` at 1000 ms then `BOTAO_JOYSTICK` at
1100 ms. -/
theorem callback_botoes_timestamp_witness :
    (callback_botoes BOTAO_JOYSTICK 1100
      (callback_botoes BOTAO_A 1000 ⟨estado_tela_t.TELA_STATUS, 0⟩)).tela_atual =
        estado_tela_t.TELA_STATUS :=
  (callback_botoes_timestamp BOTAO_A 1000 1100 ⟨estado_tela_t.TELA_STATUS, 0⟩).2.2 rfl
    (by decide) (by decide)

/-- C4 as stated fails: from `TELA_MENU` two edges on `BOTAO_A` 300 ms apart change the
screen once, not twice, and from `TELA_STATUS` two edges on `BOTAO_A` 100 ms apart
change it not at all, although the debounce window has elapsed in both cases. -/
theorem transicoes_counterexample :
    aceito 1000 ⟨estado_tela_t.TELA_MENU, 0⟩ = true ∧
    transicoes BOTAO_A 1000 1300 ⟨estado_tela_t.TELA_MENU, 0⟩ = 1 ∧
    transicoes BOTAO_A 1000 1300 ⟨estado_tela_t.TELA_MENU, 0⟩ ≠ 2 ∧
    aceito 1000 ⟨estado_tela_t.TELA_STATUS, 0⟩ = true ∧
    transicoes BOTAO_A 1000 1100 ⟨estado_tela_t.TELA_STATUS, 0⟩ = 0 ∧
    transicoes BOTAO_A 1000 1100 ⟨estado_tela_t.TELA_STATUS, 0⟩ ≠ 1 := by
  decide

theorem callback_botoes_ultimo (pino t : Nat) (s : Globais)
    (h : ¬ u32sub t s.ultimo_aperto < 250) : (callback_botoes pino t s).ultimo_aperto = t := by
  obtain ⟨tela, ultimo⟩ := s
  simp only at h
  cases tela <;> simp only [callback_botoes, h, if_false] <;> split_ifs <;> rfl

theorem callback_botoes_tela (pino t : Nat) (s : Globais)
    (h : ¬ u32sub t s.ultimo_aperto < 250) :
    (callback_botoes pino t s).tela_atual = proxima_tela s.tela_atual pino := by
  obtain ⟨tela, ultimo⟩ := s
  simp only at h
  cases tela <;> simp only [callback_botoes, proxima_tela, h, if_false] <;> split_ifs <;> simp_all

theorem pino_cases (pino : Nat) :
    pino = 5 ∨ pino = 6 ∨ pino = 22 ∨ (pino ≠ 5 ∧ pino ≠ 6 ∧ pino ≠ 22) := by
  omega

theorem mudancas_proxima (tela : estado_tela_t) (pino : Nat) :
    (if tela = proxima_tela tela pino then 0 else 1) = if na_tabela tela pino then 1 else 0 := by
  rcases pino_cases pino with h | h | h | ⟨h1, h2, h3⟩
  · subst h; cases tela <;> decide
  · subst h; cases tela <;> decide
  · subst h; cases tela <;> decide
  · cases tela <;> simp [proxima_tela, na_tabela, BOTAO_A, BOTAO_B, BOTAO_JOYSTICK, h1, h2, h3]

theorem proxima_tela_idem (tela : estado_tela_t) (pino : Nat) :
    proxima_tela (proxima_tela tela pino) pino = proxima_tela tela pino := by
  rcases pino_cases pino with h | h | h | ⟨h1, h2, h3⟩
  · subst h; cases tela <;> decide
  · subst h; cases tela <;> decide
  · subst h; cases tela <;> decide
  · cases tela <;> simp [proxima_tela, BOTAO_A, BOTAO_B, BOTAO_JOYSTICK, h1, h2, h3]

/-- C4, amended. With the debounce window elapsed at clock reading `t`, of two edges on
the same input 100 ms apart exactly one is accepted and the second changes
nothing, while 300 ms apart both are accepted; in both cases the screen changes
once when the pair of screen and input is in the transition table and not at all
otherwise. -/
theorem debounce_two_edges (pino t : Nat) (s : Globais) (h : aceito t s = true) :
    aceitos pino t ((t + 100) % 4294967296) s = 1 ∧
    callback_botoes pino ((t + 100) % 4294967296) (callback_botoes pino t s) =
      callback_botoes pino t s ∧
    aceitos pino t ((t + 300) % 4294967296) s = 2 ∧
    transicoes pino t ((t + 100) % 4294967296) s = (if na_tabela s.tela_atual pino then 1 else 0) ∧
    transicoes pino t ((t + 300) % 4294967296) s = (if na_tabela s.tela_atual pino then 1 else 0) := by
  have h0 : ¬ u32sub t s.ultimo_aperto < 250 := by simpa [aceito] using h
  have hu := callback_botoes_ultimo pino t s h0
  have htela := callback_botoes_tela pino t s h0
  have d100 : u32sub ((t + 100) % 4294967296) t < 250 := by unfold u32sub; omega
  have d300 : ¬ u32sub ((t + 300) % 4294967296) t < 250 := by unfold u32sub; omega
  have a100 : aceito ((t + 100) % 4294967296) (callback_botoes pino t s) = false := by
    simp [aceito, hu, d100]
  have a300 : aceito ((t + 300) % 4294967296) (callback_botoes pino t s) = true := by
    simp [aceito, hu, d300]
  have c100 : callback_botoes pino ((t + 100) % 4294967296) (callback_botoes pino t s) =
      callback_botoes pino t s := by
    generalize callback_botoes pino t s = s1 at hu
    simp [callback_botoes, hu, d100]
  have t300 := callback_botoes_tela pino ((t + 300) % 4294967296) (callback_botoes pino t s)
    (by rw [hu]; exact d300)
  refine ⟨by simp [aceitos, h, a100], c100, by simp [aceitos, h, a300], ?_, ?_⟩
  · unfold transicoes
    rw [c100]
    unfold mudancas
    rw [htela, if_pos rfl, Nat.add_zero]
    exact mudancas_proxima _ _
  · unfold transicoes mudancas
    rw [t300, htela, proxima_tela_idem, if_pos rfl, Nat.add_zero]
    exact mudancas_proxima _ _

/-- Witness of C4: from the start-up state, edges on `BOTAO_A` at 1000 ms and 100 or
300 ms later. -/
theorem debounce_two_edges_witness :
    aceitos BOTAO_A 1000 1100 Globais.inicial = 1 ∧
    aceitos BOTAO_A 1000 1300 Globais.inicial = 2 ∧
    transicoes BOTAO_A 1000 1100 Globais.inicial = 1 ∧
    transicoes BOTAO_A 1000 1300 Globais.inicial = 1 :=
  have k := debounce_two_edges BOTAO_A 1000 Globais.inicial (by decide)
  ⟨k.1, k.2.2.1, k.2.2.2.1, k.2.2.2.2⟩
